import Mathlib

set_option maxHeartbeats 1000000

/-
Verification development for the VT100/ANSI terminal emulator core and its
collaborators.  The emulator itself (grid, parser, emulator glue, hex-dump
decoder) is modelled from the specification; the WebSocket connection layer
is embedded from tcp.go.  Input byte streams are lists of naturals, each in
the range 0..255.
-/

namespace VT100

/-- Modelled from the spec: character attributes of a cell.  The missing
vt100 source defines foreground and background color slots (0-7 or default)
and the style flags bold, underline, blink and reverse. -/
structure Attr where
  fg : Option Nat
  bg : Option Nat
  bold : Bool
  underline : Bool
  blink : Bool
  reverse : Bool
deriving DecidableEq

def defaultAttr : Attr := ⟨none, none, false, false, false, false⟩

/-- Modelled from the spec: one grid position, an octet plus attributes.
Blank cells store the space octet 0x20 with the current attributes. -/
structure Cell where
  ch : Nat
  attr : Attr
deriving DecidableEq

def blankCell : Cell := ⟨32, defaultAttr⟩

structure Cursor where
  row : Nat
  col : Nat
deriving DecidableEq

/-- Snapshot taken by ESC 7 and restored by ESC 8: row, col, attributes and
origin mode. -/
structure Saved where
  row : Nat
  col : Nat
  attr : Attr
  origin : Bool
deriving DecidableEq

structure Modes where
  autowrap : Bool
  origin : Bool
  cursorVisible : Bool
  col132 : Bool
deriving DecidableEq

def defaultModes : Modes := ⟨true, false, true, false⟩

/-- Modelled from the spec: the 2-D character grid with cursor, scrolling
region, tab stops, current attributes and mode flags.  The boolean autoGrow
selects the DisplayWidth auto-growing variant; cells are stored row-major. -/
structure Grid where
  cols : Nat
  rows : Nat
  cells : List (List Cell)
  cursor : Cursor
  saved : Option Saved
  scrollTop : Nat
  scrollBottom : Nat
  tabStops : List Nat
  attr : Attr
  modes : Modes
  autoGrow : Bool
deriving DecidableEq

def initTabStops (cols : Nat) : List Nat :=
  (List.range cols).filter (fun c => c % 8 == 0)

def initGrid (cols rows : Nat) (ag : Bool) : Grid :=
  { cols := cols, rows := rows,
    cells := List.replicate rows (List.replicate cols blankCell),
    cursor := ⟨0, 0⟩, saved := none,
    scrollTop := 0, scrollBottom := rows - 1,
    tabStops := initTabStops cols,
    attr := defaultAttr, modes := defaultModes, autoGrow := ag }

/-- Grow the grid (auto-grow mode only) so that position (r, c) is
addressable; new cells are blank. -/
def Grid.growTo (g : Grid) (r c : Nat) : Grid :=
  if g.autoGrow then
    let nrows := max g.rows (r + 1)
    let ncols := max g.cols (c + 1)
    { g with
      rows := nrows
      cols := ncols
      cells :=
        (g.cells.map (fun rw => rw ++ List.replicate (ncols - g.cols) blankCell))
        ++ List.replicate (nrows - g.rows) (List.replicate ncols blankCell) }
  else g

def Grid.setCell (g : Grid) (r c : Nat) (cl : Cell) : Grid :=
  { g with cells := g.cells.set r ((g.cells.getD r []).set c cl) }

/-- Scroll the scrolling region up by one row: the top row of the region is
deleted and a blank row appears at the bottom of the region. -/
def Grid.scrollUpOne (g : Grid) : Grid :=
  { g with cells :=
      (g.cells.take g.scrollTop)
      ++ ((g.cells.drop (g.scrollTop + 1)).take (g.scrollBottom - g.scrollTop))
      ++ [List.replicate g.cols ⟨32, g.attr⟩]
      ++ (g.cells.drop (g.scrollBottom + 1)) }

/-- Scroll the scrolling region down by one row. -/
def Grid.scrollDownOne (g : Grid) : Grid :=
  { g with cells :=
      (g.cells.take g.scrollTop)
      ++ [List.replicate g.cols ⟨32, g.attr⟩]
      ++ ((g.cells.drop g.scrollTop).take (g.scrollBottom - g.scrollTop))
      ++ (g.cells.drop (g.scrollBottom + 1)) }

def Grid.carriageReturn (g : Grid) : Grid :=
  { g with cursor := ⟨g.cursor.row, 0⟩ }

/-- Line feed: at the bottom of the scrolling region scroll up; below the
region clamp at the last row; in auto-grow mode grow instead of scrolling. -/
def Grid.lineFeed (g : Grid) : Grid :=
  if g.autoGrow then
    let g1 := g.growTo (g.cursor.row + 1) 0
    { g1 with cursor := ⟨g.cursor.row + 1, g.cursor.col⟩ }
  else if g.cursor.row = g.scrollBottom then g.scrollUpOne
  else { g with cursor := ⟨min (g.cursor.row + 1) (g.rows - 1), g.cursor.col⟩ }

/-- Reverse index: at the top of the scrolling region scroll down, otherwise
move the cursor up one row. -/
def Grid.reverseIndex (g : Grid) : Grid :=
  if g.autoGrow then { g with cursor := ⟨g.cursor.row - 1, g.cursor.col⟩ }
  else if g.cursor.row = g.scrollTop then g.scrollDownOne
  else { g with cursor := ⟨g.cursor.row - 1, g.cursor.col⟩ }

/-- Write a character at the cursor and advance.  In fixed mode with
autowrap set, a write with the cursor in the pending-wrap position
(col = cols) first performs CR and LF, then writes; otherwise the cell at
the (clamped) cursor column is written and the cursor advances, possibly
into the pending-wrap position. -/
def Grid.putChar (g : Grid) (b : Nat) : Grid :=
  if g.autoGrow then
    let g1 := g.growTo g.cursor.row g.cursor.col
    let g2 := g1.setCell g.cursor.row g.cursor.col ⟨b, g.attr⟩
    { g2 with cursor := ⟨g.cursor.row, g.cursor.col + 1⟩ }
  else if g.modes.autowrap = true ∧ g.cursor.col = g.cols then
    let g1 := (g.carriageReturn).lineFeed
    let g2 := g1.setCell g1.cursor.row 0 ⟨b, g.attr⟩
    { g2 with cursor := ⟨g1.cursor.row, 1⟩ }
  else
    let c := min g.cursor.col (g.cols - 1)
    let g2 := g.setCell g.cursor.row c ⟨b, g.attr⟩
    { g2 with cursor := ⟨g.cursor.row, c + 1⟩ }

/-- Absolute cursor motion, 0-based, origin-mode aware, clamped in fixed
mode and growing in auto-grow mode. -/
def Grid.moveTo (g : Grid) (r c : Nat) : Grid :=
  if g.autoGrow then
    let g1 := g.growTo r c
    { g1 with cursor := ⟨r, c⟩ }
  else if g.modes.origin then
    { g with cursor := ⟨min (g.scrollTop + r) g.scrollBottom, min c (g.cols - 1)⟩ }
  else
    { g with cursor := ⟨min r (g.rows - 1), min c (g.cols - 1)⟩ }

def Grid.cursorUp (g : Grid) (n : Nat) : Grid :=
  let limit := if g.scrollTop ≤ g.cursor.row then g.scrollTop else 0
  { g with cursor := ⟨max (g.cursor.row - n) limit, g.cursor.col⟩ }

def Grid.cursorDown (g : Grid) (n : Nat) : Grid :=
  if g.autoGrow then
    let g1 := g.growTo (g.cursor.row + n) 0
    { g1 with cursor := ⟨g.cursor.row + n, g.cursor.col⟩ }
  else
    let limit := if g.cursor.row ≤ g.scrollBottom then g.scrollBottom else g.rows - 1
    { g with cursor := ⟨min (g.cursor.row + n) limit, g.cursor.col⟩ }

def Grid.cursorForward (g : Grid) (n : Nat) : Grid :=
  if g.autoGrow then
    let g1 := g.growTo g.cursor.row (g.cursor.col + n)
    { g1 with cursor := ⟨g.cursor.row, g.cursor.col + n⟩ }
  else
    { g with cursor := ⟨g.cursor.row, min (g.cursor.col + n) (g.cols - 1)⟩ }

def Grid.cursorBack (g : Grid) (n : Nat) : Grid :=
  { g with cursor := ⟨g.cursor.row, g.cursor.col - n⟩ }

/-- Advance the cursor to the next tab stop beyond the current column,
clamped to the last column. -/
def Grid.tabForward (g : Grid) : Grid :=
  let next := (g.tabStops.filter (fun t => g.cursor.col < t)).foldr min (g.cols - 1)
  { g with cursor := ⟨g.cursor.row, min next (g.cols - 1)⟩ }

def Grid.mapCells (g : Grid) (f : Nat → Nat → Cell → Cell) : Grid :=
  { g with cells :=
      g.cells.enum.map (fun rp => rp.2.enum.map (fun cp => f rp.1 cp.1 cp.2)) }

/-- Erase in line: 0 = cursor to end, 1 = beginning to cursor, 2 = entire
line.  Cleared cells are blank with the current attributes. -/
def Grid.eraseLine (g : Grid) (m : Nat) : Grid :=
  let cc := min g.cursor.col (g.cols - 1)
  g.mapCells (fun r c cl =>
    if r = g.cursor.row ∧
       ((m = 0 ∧ cc ≤ c) ∨ (m = 1 ∧ c ≤ cc) ∨ m = 2)
    then ⟨32, g.attr⟩ else cl)

/-- Erase in display: 0 = cursor to end, 1 = beginning to cursor,
2 = entire display. -/
def Grid.eraseDisplay (g : Grid) (m : Nat) : Grid :=
  let cr := g.cursor.row
  let cc := min g.cursor.col (g.cols - 1)
  g.mapCells (fun r c cl =>
    if (m = 0 ∧ (cr < r ∨ (r = cr ∧ cc ≤ c))) ∨
       (m = 1 ∧ (r < cr ∨ (r = cr ∧ c ≤ cc))) ∨
       m = 2
    then ⟨32, g.attr⟩ else cl)

/-- Column-mode change (private mode 3): the display is reset to 132 or 80
columns by 24 rows, cleared, with cursor at home and a full scrolling
region. -/
def Grid.resize (g : Grid) (wide : Bool) : Grid :=
  let ncols := if wide then 132 else 80
  { g with
    cols := ncols
    rows := 24
    cells := List.replicate 24 (List.replicate ncols blankCell)
    cursor := ⟨0, 0⟩
    scrollTop := 0
    scrollBottom := 23
    tabStops := initTabStops ncols
    modes := { g.modes with col132 := wide } }

/-- DECALN: fill the entire grid with the character E using the current
attributes and move the cursor to home. -/
def Grid.decaln (g : Grid) : Grid :=
  { g with cells := List.replicate g.rows (List.replicate g.cols ⟨69, g.attr⟩),
           cursor := ⟨0, 0⟩ }

def Grid.saveCursor (g : Grid) : Grid :=
  { g with saved := some ⟨g.cursor.row, g.cursor.col, g.attr, g.modes.origin⟩ }

def Grid.restoreCursor (g : Grid) : Grid :=
  match g.saved with
  | none => { g with cursor := ⟨0, 0⟩, attr := defaultAttr }
  | some sv =>
    { g with cursor := ⟨min sv.row (g.rows - 1), min sv.col g.cols⟩,
             attr := sv.attr,
             modes := { g.modes with origin := sv.origin } }

/-- Full reset (ESC c): clear the display, home the cursor, default
attributes, modes, tab stops and scrolling region.  Dimensions and grow
mode are kept. -/
def Grid.resetAll (g : Grid) : Grid :=
  { cols := g.cols, rows := g.rows,
    cells := List.replicate g.rows (List.replicate g.cols blankCell),
    cursor := ⟨0, 0⟩, saved := none,
    scrollTop := 0, scrollBottom := g.rows - 1,
    tabStops := initTabStops g.cols,
    attr := defaultAttr, modes := defaultModes, autoGrow := g.autoGrow }

/-- Apply one SGR parameter to the attribute set. -/
def Attr.applySGR (a : Attr) (p : Nat) : Attr :=
  if p = 0 then defaultAttr
  else if p = 1 then { a with bold := true }
  else if p = 4 then { a with underline := true }
  else if p = 5 then { a with blink := true }
  else if p = 7 then { a with reverse := true }
  else if p = 22 then { a with bold := false }
  else if p = 24 then { a with underline := false }
  else if p = 25 then { a with blink := false }
  else if p = 27 then { a with reverse := false }
  else if 30 ≤ p ∧ p ≤ 37 then { a with fg := some (p - 30) }
  else if p = 39 then { a with fg := none }
  else if 40 ≤ p ∧ p ≤ 47 then { a with bg := some (p - 40) }
  else if p = 49 then { a with bg := none }
  else a

def applySGRs (a : Attr) (ps : List (Option Nat)) : Attr :=
  ps.foldl (fun acc p => acc.applySGR (p.getD 0)) a

/-- Set or reset one private mode: 3 = column mode (resize), 6 = origin,
7 = autowrap, 25 = cursor visible; all others are consumed silently. -/
def Grid.setPrivMode (g : Grid) (p : Nat) (v : Bool) : Grid :=
  if p = 3 then g.resize v
  else if p = 6 then { g with modes := { g.modes with origin := v } }
  else if p = 7 then { g with modes := { g.modes with autowrap := v } }
  else if p = 25 then { g with modes := { g.modes with cursorVisible := v } }
  else g

def modesSet (g : Grid) (ps : List (Option Nat)) (v : Bool) : Grid :=
  ps.foldl (fun acc p => acc.setPrivMode (p.getD 0) v) g

/-- DECSTBM: set the scrolling region from 1-based parameters (defaulted by
the caller) when the resulting region is sane, and home the cursor. -/
def Grid.setRegion (g : Grid) (t b : Nat) : Grid :=
  let t0 := min (t - 1) (g.rows - 1)
  let b0 := min (b - 1) (g.rows - 1)
  let g1 := if t0 ≤ b0 then { g with scrollTop := t0, scrollBottom := b0 } else g
  { g1 with cursor := ⟨if g1.modes.origin then g1.scrollTop else 0, 0⟩ }

/-- TBC: 0 = clear the tab stop at the cursor, 3 = clear all tab stops. -/
def Grid.tabClear (g : Grid) (m : Nat) : Grid :=
  if m = 0 then { g with tabStops := g.tabStops.filter (fun t => t ≠ g.cursor.col) }
  else if m = 3 then { g with tabStops := [] }
  else g

/-- Modelled from the spec: the parser states of the missing vt100 escape
state machine.  The csi state carries the private-mode flag, the completed
parameters and the parameter being accumulated. -/
inductive PState where
  | ground
  | escape
  | csi (priv : Bool) (params : List (Option Nat)) (cur : Option Nat)
  | csiInt
  | hash
  | charset
deriving DecidableEq

structure EmulState where
  grid : Grid
  pst : PState
deriving DecidableEq

/-- Read CSI parameter i with per-command default d; a missing parameter is
replaced by the default. -/
def getParam (ps : List (Option Nat)) (i d : Nat) : Nat :=
  match ps.getD i none with
  | none => d
  | some v => v

/-- Apply a complete CSI sequence with final byte fb to the grid.  Motion
commands treat an explicit parameter value of 0 as 1, as the VT100 does and
as the vttest fixture in the test suite requires. -/
def Grid.csiApply (g : Grid) (priv : Bool) (ps : List (Option Nat))
    (fb : Nat) : Grid :=
  if fb = 65 then g.cursorUp (max (getParam ps 0 1) 1)
  else if fb = 66 then g.cursorDown (max (getParam ps 0 1) 1)
  else if fb = 67 then g.cursorForward (max (getParam ps 0 1) 1)
  else if fb = 68 then g.cursorBack (max (getParam ps 0 1) 1)
  else if fb = 72 ∨ fb = 102 then
    g.moveTo (max (getParam ps 0 1) 1 - 1) (max (getParam ps 1 1) 1 - 1)
  else if fb = 74 then g.eraseDisplay (getParam ps 0 0)
  else if fb = 75 then g.eraseLine (getParam ps 0 0)
  else if fb = 109 then { g with attr := applySGRs g.attr ps }
  else if fb = 104 then (if priv then modesSet g ps true else g)
  else if fb = 108 then (if priv then modesSet g ps false else g)
  else if fb = 114 then g.setRegion (getParam ps 0 1) (getParam ps 1 g.rows)
  else if fb = 103 then g.tabClear (getParam ps 0 0)
  else g

/-- Dispatch a complete CSI sequence and return the parser to ground. -/
def EmulState.csiDispatch (s : EmulState) (priv : Bool) (ps : List (Option Nat))
    (fb : Nat) : EmulState :=
  { grid := s.grid.csiApply priv ps fb, pst := .ground }

/-- Modelled from the spec: one transition of the combined parser and
emulator on a single input octet.  The function is total: malformed or
unknown sequences are discarded and the parser returns to ground. -/
def step (s : EmulState) (b : Nat) : EmulState :=
  match s.pst with
  | .ground =>
    if b = 27 then { s with pst := .escape }
    else if b = 8 then { s with grid := s.grid.cursorBack 1 }
    else if b = 9 then { s with grid := s.grid.tabForward }
    else if b = 10 ∨ b = 11 ∨ b = 12 then { s with grid := s.grid.lineFeed }
    else if b = 13 then { s with grid := s.grid.carriageReturn }
    else if b < 32 ∨ b = 127 then s
    else if b ≤ 255 then { s with grid := s.grid.putChar b }
    else s
  | .escape =>
    if b = 91 then { s with pst := .csi false [] none }
    else if b = 35 then { s with pst := .hash }
    else if b = 40 ∨ b = 41 then { s with pst := .charset }
    else if b = 55 then { grid := s.grid.saveCursor, pst := .ground }
    else if b = 56 then { grid := s.grid.restoreCursor, pst := .ground }
    else if b = 68 then { grid := s.grid.lineFeed, pst := .ground }
    else if b = 69 then { grid := (s.grid.carriageReturn).lineFeed, pst := .ground }
    else if b = 77 then { grid := s.grid.reverseIndex, pst := .ground }
    else if b = 99 then { grid := s.grid.resetAll, pst := .ground }
    else { s with pst := .ground }
  | .csi priv ps cur =>
    if 48 ≤ b ∧ b ≤ 57 then
      { s with pst := .csi priv ps (some ((cur.getD 0) * 10 + (b - 48))) }
    else if b = 59 then { s with pst := .csi priv (ps ++ [cur]) none }
    else if b = 63 then
      (if ps = [] ∧ cur = none then { s with pst := .csi true ps cur }
       else { s with pst := .ground })
    else if 32 ≤ b ∧ b ≤ 47 then { s with pst := .csiInt }
    else if 64 ≤ b ∧ b ≤ 126 then s.csiDispatch priv (ps ++ [cur]) b
    else { s with pst := .ground }
  | .csiInt =>
    if 64 ≤ b ∧ b ≤ 126 then { s with pst := .ground }
    else if 32 ≤ b ∧ b ≤ 47 then s
    else { s with pst := .ground }
  | .hash =>
    if b = 56 then { grid := s.grid.decaln, pst := .ground }
    else { s with pst := .ground }
  | .charset => { s with pst := .ground }

def run (s : EmulState) (input : List Nat) : EmulState :=
  input.foldl step s

def initEmul (cols rows : Nat) (ag : Bool) : EmulState :=
  ⟨initGrid cols rows ag, .ground⟩

/-- Modelled from the spec: DisplayWidth runs the emulator in auto-grow
mode from a 1 by 1 grid and reports the final grid dimensions. -/
def DisplayWidth (input : List Nat) : Nat × Nat :=
  ((run (initEmul 1 1 true) input).grid.cols,
   (run (initEmul 1 1 true) input).grid.rows)

/-- Remove trailing space octets from one rendered row. -/
def rstrip (l : List Nat) : List Nat :=
  (l.reverse.dropWhile (fun c => c == 32)).reverse

/-- Render the grid as rows of octets, with trailing blank cells removed
per row and trailing fully-blank rows removed from the bottom. -/
def trimGrid (g : Grid) : List (List Nat) :=
  (((g.cells.map (fun r => rstrip (r.map Cell.ch))).reverse.dropWhile
    List.isEmpty)).reverse

/-- Modelled from the spec: Trim runs the emulator in fixed 80 by 24 mode
and returns the trimmed visible rows. -/
def Trim (input : List Nat) : List (List Nat) :=
  trimGrid (run (initEmul 80 24 false) input).grid

end VT100

namespace VT100

/-- Modelled from the spec: the hex-dump decoder error taxonomy. -/
inductive HexDumpError where
  | malformedHexDump
deriving DecidableEq

/-- Split a byte list on a separator byte, keeping empty groups. -/
def splitOnByte (sep : Nat) (l : List Nat) : List (List Nat) :=
  l.foldr (fun b acc =>
    match acc with
    | [] => if b = sep then [[], []] else [[b]]
    | cur :: rest => if b = sep then [] :: cur :: rest else (b :: cur) :: rest)
    [[]]

def isHexDig (c : Nat) : Bool := (48 ≤ c && c ≤ 57) || (97 ≤ c && c ≤ 102)

def hexVal (c : Nat) : Nat := if c ≤ 57 then c - 48 else c - 87

def decodePairs : List Nat → List Nat
  | a :: b :: rest => (hexVal a * 16 + hexVal b) :: decodePairs rest
  | _ => []

/-- Whitespace-separated tokens of a line, with empty tokens dropped, so
that runs of spaces (including the extra space between the 8th and 9th
byte pair) are collapsed. -/
def lineToks (line : List Nat) : List (List Nat) :=
  (splitOnByte 32 line).filter (fun t => !t.isEmpty)

/-- Decode the byte-pair tokens of one matched line.  Parsing stops at the
ASCII pane (a token starting with the bar octet 0x7c) or at the first
non-hex token; a hex token of odd length is an unpaired nibble and yields
MalformedHexDump. -/
def parseToks : List (List Nat) → Except HexDumpError (List Nat)
  | [] => .ok []
  | t :: rest =>
    if t.headD 0 = 124 then .ok []
    else if t.all isHexDig then
      if t.length % 2 = 0 then
        match parseToks rest with
        | .ok bs => .ok (decodePairs t ++ bs)
        | .error e => .error e
      else .error .malformedHexDump
    else .ok []

/-- Decode one line: a line whose first token is not a well-formed
lowercase-hex offset does not match the stanza pattern and is skipped. -/
def parseLine (line : List Nat) : Except HexDumpError (List Nat) :=
  match lineToks line with
  | [] => .ok []
  | off :: rest => if off.all isHexDig then parseToks rest else .ok []

def parseLines : List (List Nat) → Except HexDumpError (List Nat)
  | [] => .ok []
  | l :: ls =>
    match parseLine l, parseLines ls with
    | .ok bs, .ok rest => .ok (bs ++ rest)
    | .error e, _ => .error e
    | .ok _, .error e => .error e

/-- Modelled from the spec: ParseHexDump converts canonical hex-dump text
into raw octets, skipping lines that do not match the stanza pattern. -/
def ParseHexDump (input : List Nat) : Except HexDumpError (List Nat) :=
  parseLines (splitOnByte 10 input)

/-- True when the byte tokens of a line contain, before the ASCII pane, an
all-hex token of odd length (an unpaired nibble). -/
def hasOddTok : List (List Nat) → Bool
  | [] => false
  | t :: rest =>
    if t.headD 0 = 124 then false
    else if t.all isHexDig then
      if t.length % 2 = 0 then hasOddTok rest else true
    else false

/-- True when a line matches the stanza pattern and contains an unpaired
nibble. -/
def lineMalformed (line : List Nat) : Bool :=
  match lineToks line with
  | [] => false
  | off :: rest => off.all isHexDig && hasOddTok rest

/-- True when a line does not match the stanza pattern and is skipped. -/
def lineSkipped (line : List Nat) : Bool :=
  match lineToks line with
  | [] => true
  | off :: _ => !(off.all isHexDig)

end VT100

namespace BBNet

/-- Message types delivered on the WebSocket channel (tcp.go). -/
inductive MessageType where
  | open_msg
  | error_msg
  | close_msg
  | data_msg
deriving DecidableEq

/-- Abstract state of the browser-side WebSocket: the frames handed to the
JavaScript send primitive, and whether the socket was closed. -/
structure WebSocket where
  url : List Nat
  sentFrames : List (List Nat)
  closed : Bool
deriving DecidableEq

/-- WebSocket.Send copies the bytes into a JavaScript buffer and invokes
the native send primitive; in the model the frame is appended to the sink. -/
def WebSocket.Send (ws : WebSocket) (data : List Nat) : WebSocket :=
  { ws with sentFrames := ws.sentFrames ++ [data] }

/-- WSConn from tcp.go: a net.Conn over the WebSocket, with a receive
buffer and a sticky error. -/
structure WSConn where
  ws : WebSocket
  network : List Nat
  addr : List Nat
  buffered : List Nat
  err : Option (List Nat)
deriving DecidableEq

/-- WSConn.Write from tcp.go: it sends the bytes on the WebSocket and
returns the pair (len(b), nil) unconditionally. -/
def WSConn.Write (c : WSConn) (b : List Nat) : WSConn × (Nat × Option (List Nat)) :=
  ({ c with ws := c.ws.Send b }, (b.length, none))

end BBNet

namespace VT100

/-- Input of the third width test: private-mode reset ?3l then DECALN. -/
def c1Input : List Nat := [27, 91, 63, 51, 108, 27, 35, 56]

/-- The cursor and region bounds invariant of the grid: at least one row
and column, cursor row strictly inside, cursor column allowed to sit in
the pending-wrap position col = cols, and a sane scrolling region. -/
def Grid.WF (g : Grid) : Prop :=
  1 ≤ g.rows ∧ 1 ≤ g.cols ∧
  g.cursor.row < g.rows ∧ g.cursor.col ≤ g.cols ∧
  g.scrollTop ≤ g.scrollBottom ∧ g.scrollBottom < g.rows

/-- The SGR prefix of claim C5: set black foreground on red background. -/
def sgrPre : List Nat := [27, 91, 51, 48, 59, 52, 49, 109]

/-- The SGR suffix of claim C5: reset attributes. -/
def sgrSuf : List Nat := [27, 91, 48, 109]

/-- Attributes selected by the C5 prefix. -/
def sgrAttr : Attr := ⟨some 0, some 1, false, false, false, false⟩

/-- Fields that a ground-state, escape-free byte can never disturb: the
saved cursor snapshot, the current attributes, the grow mode; dimensions
can only grow. -/
def Pres (g g2 : Grid) : Prop :=
  g2.saved = g.saved ∧ g2.attr = g.attr ∧ g2.autoGrow = g.autoGrow ∧
  g.rows ≤ g2.rows ∧ g.cols ≤ g2.cols

/-- A stdout: header line followed by a short stanza line of two byte
pairs. -/
def shortStanza : List Nat :=
  [115, 116, 100, 111, 117, 116, 58, 10,
   48, 48, 48, 48, 48, 48, 48, 48, 32, 32, 49, 98, 32, 53, 98, 32, 32,
   124, 46, 91, 124]

/-- Repeatedly write the bytes of t into row 0 starting at column j. -/
def writeRow0 (cs : List (List Cell)) (j : Nat) (t : List Nat) (a : Attr) :
    List (List Cell) :=
  match t with
  | [] => cs
  | b :: rest => writeRow0 (cs.set 0 ((cs.getD 0 []).set j ⟨b, a⟩)) (j + 1) rest a

/-- Repeatedly write the bytes of t into one row starting at index j. -/
def setRowSeq (r : List Cell) (j : Nat) (t : List Nat) (a : Attr) : List Cell :=
  match t with
  | [] => r
  | b :: rest => setRowSeq (r.set j ⟨b, a⟩) (j + 1) rest a


end VT100

/-- Claim C1: for the input "\x1b[?3l\x1b#8", DisplayWidth returns (80, 24)
and Trim returns exactly 24 lines, each consisting of exactly 80 E
characters (octet 69): the private-mode reset ?3l forces the 80 by 24
display and DECALN fills the entire grid with E and homes the cursor. -/
theorem c1_decaln_fill :
    VT100.DisplayWidth VT100.c1Input = (80, 24) ∧
    VT100.Trim VT100.c1Input = List.replicate 24 (List.replicate 80 69) := by
  constructor
  · rfl
  · rfl

/-- Claim C2, counterexample: the round-trip law fails for the plain ASCII
text consisting of a single space (length 1, no control bytes), because
Trim removes the trailing blank cell and the resulting blank row. -/
theorem c2_roundtrip_counterexample :
    ¬ (VT100.DisplayWidth [32] = (1, 1) ∧ VT100.Trim [32] = [[32]]) := by
  intro h
  exact absurd h.2 (by decide)

/-- Claim C9: DisplayWidth and Trim are deterministic pure functions of
their input bytes: equal inputs give equal results.  In this embedding
both are plain functions of the input list, so they keep no state between
calls by construction. -/
theorem c9_pure_deterministic (i1 i2 : List Nat) (h : i1 = i2) :
    VT100.DisplayWidth i1 = VT100.DisplayWidth i2 ∧
    VT100.Trim i1 = VT100.Trim i2 := by
  subst h
  exact ⟨rfl, rfl⟩

/-- Claim C9, witness at a concrete input. -/
theorem c9_pure_deterministic_witness :
    VT100.DisplayWidth [72, 105] = VT100.DisplayWidth [72, 105] ∧
    VT100.Trim [72, 105] = VT100.Trim [72, 105] :=
  c9_pure_deterministic [72, 105] [72, 105] rfl

/-- Claim C10: WSConn.Write sends the bytes on the underlying WebSocket and
returns the pair (len(b), nil) for every connection state and every byte
slice: it never reports a partial write and never returns an error. -/
theorem c10_wsconn_write_total (c : BBNet.WSConn) (b : List Nat) :
    (BBNet.WSConn.Write c b).2 = (b.length, none) := rfl

namespace VT100

theorem wf_growTo (g : Grid) (r c : Nat) (h : g.WF) :
    (g.growTo r c).WF ∧ g.rows ≤ (g.growTo r c).rows ∧ g.cols ≤ (g.growTo r c).cols ∧
    (g.growTo r c).cursor = g.cursor ∧ (g.growTo r c).scrollTop = g.scrollTop ∧
    (g.growTo r c).scrollBottom = g.scrollBottom := by
  obtain ⟨cols, rows, cells, ⟨crow, ccol⟩, saved, st, sb, tabs, attr, modes, ag⟩ := g
  simp only [Grid.WF, Grid.growTo] at *
  split <;> simp_all

theorem wf_setCell (g : Grid) (r c : Nat) (cl : Cell) (h : g.WF) :
    (g.setCell r c cl).WF := by
  obtain ⟨cols, rows, cells, ⟨crow, ccol⟩, saved, st, sb, tabs, attr, modes, ag⟩ := g
  simpa only [Grid.WF, Grid.setCell] using h

theorem wf_scrollUpOne (g : Grid) (h : g.WF) : (g.scrollUpOne).WF := by
  obtain ⟨cols, rows, cells, ⟨crow, ccol⟩, saved, st, sb, tabs, attr, modes, ag⟩ := g
  simpa only [Grid.WF, Grid.scrollUpOne] using h

theorem wf_scrollDownOne (g : Grid) (h : g.WF) : (g.scrollDownOne).WF := by
  obtain ⟨cols, rows, cells, ⟨crow, ccol⟩, saved, st, sb, tabs, attr, modes, ag⟩ := g
  simpa only [Grid.WF, Grid.scrollDownOne] using h

theorem wf_carriageReturn (g : Grid) (h : g.WF) : (g.carriageReturn).WF := by
  obtain ⟨cols, rows, cells, ⟨crow, ccol⟩, saved, st, sb, tabs, attr, modes, ag⟩ := g
  simp only [Grid.WF, Grid.carriageReturn] at *
  omega

theorem wf_lineFeed (g : Grid) (h : g.WF) : (g.lineFeed).WF := by
  obtain ⟨cols, rows, cells, ⟨crow, ccol⟩, saved, st, sb, tabs, attr, modes, ag⟩ := g
  simp only [Grid.WF, Grid.lineFeed, Grid.growTo, Grid.scrollUpOne] at *
  repeat' split
  all_goals first | exact h | (simp_all; done) | (simp_all; omega) | omega

theorem wf_reverseIndex (g : Grid) (h : g.WF) : (g.reverseIndex).WF := by
  obtain ⟨cols, rows, cells, ⟨crow, ccol⟩, saved, st, sb, tabs, attr, modes, ag⟩ := g
  simp only [Grid.WF, Grid.reverseIndex, Grid.scrollDownOne] at *
  repeat' split
  all_goals first | exact h | (simp_all; done) | (simp_all; omega) | omega

theorem wf_putChar (g : Grid) (b : Nat) (h : g.WF) : (g.putChar b).WF := by
  obtain ⟨cols, rows, cells, ⟨crow, ccol⟩, saved, st, sb, tabs, attr, modes, ag⟩ := g
  simp only [Grid.WF, Grid.putChar, Grid.growTo, Grid.setCell, Grid.carriageReturn,
    Grid.lineFeed, Grid.scrollUpOne] at *
  repeat' split
  all_goals first | exact h | (simp_all; done) | (simp_all; omega) | omega

theorem wf_moveTo (g : Grid) (r c : Nat) (h : g.WF) : (g.moveTo r c).WF := by
  obtain ⟨cols, rows, cells, ⟨crow, ccol⟩, saved, st, sb, tabs, attr, modes, ag⟩ := g
  simp only [Grid.WF, Grid.moveTo, Grid.growTo] at *
  repeat' split
  all_goals simp_all <;> omega

theorem wf_cursorUp (g : Grid) (n : Nat) (h : g.WF) : (g.cursorUp n).WF := by
  obtain ⟨cols, rows, cells, ⟨crow, ccol⟩, saved, st, sb, tabs, attr, modes, ag⟩ := g
  simp only [Grid.WF, Grid.cursorUp] at *
  split <;> omega

theorem wf_cursorDown (g : Grid) (n : Nat) (h : g.WF) : (g.cursorDown n).WF := by
  obtain ⟨cols, rows, cells, ⟨crow, ccol⟩, saved, st, sb, tabs, attr, modes, ag⟩ := g
  simp only [Grid.WF, Grid.cursorDown, Grid.growTo] at *
  repeat' split
  all_goals simp_all <;> omega

theorem wf_cursorForward (g : Grid) (n : Nat) (h : g.WF) : (g.cursorForward n).WF := by
  obtain ⟨cols, rows, cells, ⟨crow, ccol⟩, saved, st, sb, tabs, attr, modes, ag⟩ := g
  simp only [Grid.WF, Grid.cursorForward, Grid.growTo] at *
  repeat' split
  all_goals simp_all <;> omega

theorem wf_cursorBack (g : Grid) (n : Nat) (h : g.WF) : (g.cursorBack n).WF := by
  obtain ⟨cols, rows, cells, ⟨crow, ccol⟩, saved, st, sb, tabs, attr, modes, ag⟩ := g
  simp only [Grid.WF, Grid.cursorBack] at *
  omega

theorem wf_tabForward (g : Grid) (h : g.WF) : (g.tabForward).WF := by
  obtain ⟨cols, rows, cells, ⟨crow, ccol⟩, saved, st, sb, tabs, attr, modes, ag⟩ := g
  simp only [Grid.WF, Grid.tabForward] at *
  omega

theorem wf_mapCells (g : Grid) (f : Nat → Nat → Cell → Cell) (h : g.WF) :
    (g.mapCells f).WF := by
  obtain ⟨cols, rows, cells, ⟨crow, ccol⟩, saved, st, sb, tabs, attr, modes, ag⟩ := g
  simpa only [Grid.WF, Grid.mapCells] using h

theorem wf_eraseLine (g : Grid) (m : Nat) (h : g.WF) : (g.eraseLine m).WF := by
  exact wf_mapCells _ _ h

theorem wf_eraseDisplay (g : Grid) (m : Nat) (h : g.WF) : (g.eraseDisplay m).WF := by
  exact wf_mapCells _ _ h

theorem wf_resize (g : Grid) (w : Bool) : (g.resize w).WF := by
  obtain ⟨cols, rows, cells, ⟨crow, ccol⟩, saved, st, sb, tabs, attr, modes, ag⟩ := g
  simp only [Grid.WF, Grid.resize]
  split <;> omega

theorem wf_decaln (g : Grid) (h : g.WF) : (g.decaln).WF := by
  obtain ⟨cols, rows, cells, ⟨crow, ccol⟩, saved, st, sb, tabs, attr, modes, ag⟩ := g
  simp only [Grid.WF, Grid.decaln] at *
  omega

theorem wf_saveCursor (g : Grid) (h : g.WF) : (g.saveCursor).WF := by
  obtain ⟨cols, rows, cells, ⟨crow, ccol⟩, saved, st, sb, tabs, attr, modes, ag⟩ := g
  simpa only [Grid.WF, Grid.saveCursor] using h

theorem wf_restoreCursor (g : Grid) (h : g.WF) : (g.restoreCursor).WF := by
  obtain ⟨cols, rows, cells, ⟨crow, ccol⟩, saved, st, sb, tabs, attr, modes, ag⟩ := g
  simp only [Grid.WF, Grid.restoreCursor] at *
  cases saved with
  | none => simp only []; omega
  | some sv => simp only []; omega

theorem wf_resetAll (g : Grid) (h : g.WF) : (g.resetAll).WF := by
  obtain ⟨cols, rows, cells, ⟨crow, ccol⟩, saved, st, sb, tabs, attr, modes, ag⟩ := g
  simp only [Grid.WF, Grid.resetAll] at *
  omega

theorem wf_setPrivMode (g : Grid) (p : Nat) (v : Bool) (h : g.WF) :
    (g.setPrivMode p v).WF := by
  unfold Grid.setPrivMode
  split
  · exact wf_resize g v
  · obtain ⟨cols, rows, cells, ⟨crow, ccol⟩, saved, st, sb, tabs, attr, modes, ag⟩ := g
    split
    · simpa only [Grid.WF] using h
    · split
      · simpa only [Grid.WF] using h
      · split
        · simpa only [Grid.WF] using h
        · exact h

theorem wf_modesSet (g : Grid) (ps : List (Option Nat)) (v : Bool) (h : g.WF) :
    (modesSet g ps v).WF := by
  induction ps generalizing g with
  | nil => exact h
  | cons p rest ih =>
    exact ih _ (wf_setPrivMode g (p.getD 0) v h)

theorem wf_setRegion (g : Grid) (t b : Nat) (h : g.WF) : (g.setRegion t b).WF := by
  obtain ⟨cols, rows, cells, ⟨crow, ccol⟩, saved, st, sb, tabs, attr, modes, ag⟩ := g
  simp only [Grid.WF, Grid.setRegion] at *
  split <;> (simp only []; split <;> omega)

theorem wf_tabClear (g : Grid) (m : Nat) (h : g.WF) : (g.tabClear m).WF := by
  obtain ⟨cols, rows, cells, ⟨crow, ccol⟩, saved, st, sb, tabs, attr, modes, ag⟩ := g
  unfold Grid.tabClear
  split
  · simpa only [Grid.WF] using h
  · split
    · simpa only [Grid.WF] using h
    · exact h

theorem wf_csiApply (g : Grid) (priv : Bool) (ps : List (Option Nat))
    (fb : Nat) (h : g.WF) : (g.csiApply priv ps fb).WF := by
  unfold Grid.csiApply
  by_cases h1 : fb = 65
  · rw [if_pos h1]; exact wf_cursorUp _ _ h
  rw [if_neg h1]
  by_cases h2 : fb = 66
  · rw [if_pos h2]; exact wf_cursorDown _ _ h
  rw [if_neg h2]
  by_cases h3 : fb = 67
  · rw [if_pos h3]; exact wf_cursorForward _ _ h
  rw [if_neg h3]
  by_cases h4 : fb = 68
  · rw [if_pos h4]; exact wf_cursorBack _ _ h
  rw [if_neg h4]
  by_cases h5 : fb = 72 ∨ fb = 102
  · rw [if_pos h5]; exact wf_moveTo _ _ _ h
  rw [if_neg h5]
  by_cases h6 : fb = 74
  · rw [if_pos h6]; exact wf_eraseDisplay _ _ h
  rw [if_neg h6]
  by_cases h7 : fb = 75
  · rw [if_pos h7]; exact wf_eraseLine _ _ h
  rw [if_neg h7]
  by_cases h8 : fb = 109
  · rw [if_pos h8]; exact h
  rw [if_neg h8]
  by_cases h9 : fb = 104
  · rw [if_pos h9]
    by_cases hp : priv = true
    · rw [if_pos hp]; exact wf_modesSet _ _ _ h
    · rw [if_neg hp]; exact h
  rw [if_neg h9]
  by_cases h10 : fb = 108
  · rw [if_pos h10]
    by_cases hp : priv = true
    · rw [if_pos hp]; exact wf_modesSet _ _ _ h
    · rw [if_neg hp]; exact h
  rw [if_neg h10]
  by_cases h11 : fb = 114
  · rw [if_pos h11]; exact wf_setRegion _ _ _ h
  rw [if_neg h11]
  by_cases h12 : fb = 103
  · rw [if_pos h12]; exact wf_tabClear _ _ h
  · rw [if_neg h12]; exact h

theorem wf_csiDispatch (s : EmulState) (priv : Bool) (ps : List (Option Nat))
    (fb : Nat) (h : s.grid.WF) : (s.csiDispatch priv ps fb).grid.WF := by
  exact wf_csiApply s.grid priv ps fb h

theorem wf_step (s : EmulState) (b : Nat) (h : s.grid.WF) : (step s b).grid.WF := by
  obtain ⟨g, p⟩ := s
  cases p with
  | ground =>
    simp only [step]
    split
    · exact h
    · split
      · exact wf_cursorBack _ _ h
      · split
        · exact wf_tabForward _ h
        · split
          · exact wf_lineFeed _ h
          · split
            · exact wf_carriageReturn _ h
            · split
              · exact h
              · split
                · exact wf_putChar _ _ h
                · exact h
  | escape =>
    simp only [step]
    split
    · exact h
    · split
      · exact h
      · split
        · exact h
        · split
          · exact wf_saveCursor _ h
          · split
            · exact wf_restoreCursor _ h
            · split
              · exact wf_lineFeed _ h
              · split
                · exact wf_lineFeed _ (wf_carriageReturn _ h)
                · split
                  · exact wf_reverseIndex _ h
                  · split
                    · exact wf_resetAll _ h
                    · exact h
  | csi priv ps cur =>
    simp only [step]
    split
    · exact h
    · split
      · exact h
      · split
        · split
          · exact h
          · exact h
        · split
          · exact h
          · split
            · exact wf_csiDispatch _ _ _ _ h
            · exact h
  | csiInt =>
    simp only [step]
    split
    · exact h
    · split
      · exact h
      · exact h
  | hash =>
    simp only [step]
    split
    · exact wf_decaln _ h
    · exact h
  | charset => exact h

theorem wf_run (s : EmulState) (bs : List Nat) (h : s.grid.WF) :
    (run s bs).grid.WF := by
  induction bs generalizing s with
  | nil => exact h
  | cons b rest ih => exact ih _ (wf_step s b h)

end VT100

/-- Claim C4: after consuming any byte sequence (hence after every prefix
of any input, since the prefix is itself such a sequence), the cursor
satisfies row in [0, rows) and col in [0, cols], where col = cols is the
pending-wrap position; this holds both in auto-grow mode (DisplayWidth,
started 1 by 1) and in fixed 80 by 24 mode (Trim). -/
theorem c4_cursor_bounds (bs : List Nat) :
    ((VT100.run (VT100.initEmul 1 1 true) bs).grid.cursor.row
        < (VT100.run (VT100.initEmul 1 1 true) bs).grid.rows ∧
      (VT100.run (VT100.initEmul 1 1 true) bs).grid.cursor.col
        ≤ (VT100.run (VT100.initEmul 1 1 true) bs).grid.cols) ∧
    ((VT100.run (VT100.initEmul 80 24 false) bs).grid.cursor.row
        < (VT100.run (VT100.initEmul 80 24 false) bs).grid.rows ∧
      (VT100.run (VT100.initEmul 80 24 false) bs).grid.cursor.col
        ≤ (VT100.run (VT100.initEmul 80 24 false) bs).grid.cols) := by
  have hA := VT100.wf_run (VT100.initEmul 1 1 true) bs
    (by unfold VT100.Grid.WF VT100.initEmul VT100.initGrid; norm_num)
  have hF := VT100.wf_run (VT100.initEmul 80 24 false) bs
    (by unfold VT100.Grid.WF VT100.initEmul VT100.initGrid; norm_num)
  exact ⟨⟨hA.2.2.1, hA.2.2.2.1⟩, ⟨hF.2.2.1, hF.2.2.2.1⟩⟩

namespace VT100

/-- A printable byte in ground state is written via putChar. -/
theorem step_ground_print (s : EmulState) (b : Nat) (h : s.pst = .ground)
    (h1 : 32 ≤ b) (h2 : b ≤ 255) (h3 : b ≠ 127) :
    step s b = { s with grid := s.grid.putChar b } := by
  obtain ⟨g, p⟩ := s
  simp only [] at h
  subst h
  show (if b = 27 then _ else _) = _
  rw [if_neg (show ¬b = 27 by omega), if_neg (show ¬b = 8 by omega),
      if_neg (show ¬b = 9 by omega),
      if_neg (show ¬(b = 10 ∨ b = 11 ∨ b = 12) by omega),
      if_neg (show ¬b = 13 by omega),
      if_neg (show ¬(b < 32 ∨ b = 127) by omega),
      if_pos (show b ≤ 255 from h2)]

/-- Fixed-mode write with the cursor strictly inside the row: the cell at
the cursor is written and the cursor advances one column. -/
theorem putChar_nowrap (g : Grid) (b : Nat) (hag : g.autoGrow = false)
    (hc : g.cursor.col < g.cols) :
    g.putChar b =
      { g.setCell g.cursor.row g.cursor.col ⟨b, g.attr⟩ with
          cursor := ⟨g.cursor.row, g.cursor.col + 1⟩ } := by
  unfold Grid.putChar
  rw [if_neg (by simp [hag]), if_neg (by intro hx; omega)]
  have hmin : min g.cursor.col (g.cols - 1) = g.cursor.col := by omega
  rw [hmin]

/-- Fixed-mode write with the cursor in the pending-wrap position: CR and
LF are performed first, then the character is written at column 0 and the
cursor ends at column 1. -/
theorem putChar_pending (g : Grid) (b : Nat) (hag : g.autoGrow = false)
    (hw : g.modes.autowrap = true) (hc : g.cursor.col = g.cols) :
    g.putChar b =
      { ((g.carriageReturn).lineFeed).setCell
          ((g.carriageReturn).lineFeed).cursor.row 0 ⟨b, g.attr⟩ with
          cursor := ⟨((g.carriageReturn).lineFeed).cursor.row, 1⟩ } := by
  unfold Grid.putChar
  rw [if_neg (by simp [hag]), if_pos ⟨hw, hc⟩]

/-- Auto-grow write: the grid grows to include the cursor cell, the cell is
written and the cursor advances one column. -/
theorem putChar_ag (g : Grid) (b : Nat) (hag : g.autoGrow = true) :
    g.putChar b =
      { (g.growTo g.cursor.row g.cursor.col).setCell
          g.cursor.row g.cursor.col ⟨b, g.attr⟩ with
          cursor := ⟨g.cursor.row, g.cursor.col + 1⟩ } := by
  unfold Grid.putChar
  rw [if_pos hag]

theorem step_ground_esc (s : EmulState) (h : s.pst = .ground) :
    step s 27 = { s with pst := .escape } := by
  obtain ⟨g, p⟩ := s
  simp only [] at h
  subst h
  rfl

theorem step_escape_csi (s : EmulState) (h : s.pst = .escape) :
    step s 91 = { s with pst := .csi false [] none } := by
  obtain ⟨g, p⟩ := s
  simp only [] at h
  subst h
  rfl

theorem step_csi_final (s : EmulState) (priv : Bool) (ps : List (Option Nat))
    (cur : Option Nat) (h : s.pst = .csi priv ps cur) (fb : Nat)
    (hf1 : 64 ≤ fb) (hf2 : fb ≤ 126) :
    step s fb = s.csiDispatch priv (ps ++ [cur]) fb := by
  obtain ⟨g, p⟩ := s
  simp only [] at h
  subst h
  show (if 48 ≤ fb ∧ fb ≤ 57 then _ else _) = _
  rw [if_neg (show ¬(48 ≤ fb ∧ fb ≤ 57) by omega),
      if_neg (show ¬fb = 59 by omega), if_neg (show ¬fb = 63 by omega),
      if_neg (show ¬(32 ≤ fb ∧ fb ≤ 47) by omega),
      if_pos (show 64 ≤ fb ∧ fb ≤ 126 from ⟨hf1, hf2⟩)]

end VT100

namespace VT100

/-- CSI H with no parameters is an absolute move to home. -/
theorem csiApply_H (g : Grid) : g.csiApply false [none] 72 = g.moveTo 0 0 := rfl

/-- In fixed mode without origin mode, moveTo 0 0 homes the cursor and
touches nothing else. -/
theorem moveTo_home (g : Grid) (hag : g.autoGrow = false)
    (ho : g.modes.origin = false) :
    g.moveTo 0 0 = { g with cursor := ⟨0, 0⟩ } := by
  unfold Grid.moveTo
  rw [if_neg (by simp [hag]), if_neg (by simp [ho])]
  have h1 : min 0 (g.rows - 1) = 0 := by omega
  have h2 : min 0 (g.cols - 1) = 0 := by omega
  rw [h1, h2]

end VT100

/-- Claim C3: in fixed mode with autowrap set, a printable character
written at the rightmost column cols-1 is stored in column cols-1 and
leaves the cursor in the pending-wrap position col = cols; a printable
write from the pending-wrap position performs CR and LF first and ends at
column 1; and from the pending-wrap position a cursor-positioning sequence
ESC [ H leaves every cell unchanged (no scroll, no line change) and homes
the cursor. -/
theorem c3_deferred_wrap :
    (∀ (s : VT100.EmulState) (b : Nat),
      s.pst = .ground → s.grid.autoGrow = false →
      s.grid.modes.autowrap = true → 1 ≤ s.grid.cols →
      s.grid.cursor.col = s.grid.cols - 1 →
      32 ≤ b → b ≤ 255 → b ≠ 127 →
      (VT100.step s b).grid.cells =
        (s.grid.setCell s.grid.cursor.row (s.grid.cols - 1)
          ⟨b, s.grid.attr⟩).cells ∧
      (VT100.step s b).grid.cursor = ⟨s.grid.cursor.row, s.grid.cols⟩) ∧
    (∀ (s : VT100.EmulState) (b : Nat),
      s.pst = .ground → s.grid.autoGrow = false →
      s.grid.modes.autowrap = true → s.grid.cursor.col = s.grid.cols →
      32 ≤ b → b ≤ 255 → b ≠ 127 →
      (VT100.step s b).grid.cursor =
        ⟨((s.grid.carriageReturn).lineFeed).cursor.row, 1⟩) ∧
    (∀ s : VT100.EmulState,
      s.pst = .ground → s.grid.autoGrow = false → s.grid.modes.origin = false →
      (VT100.run s [27, 91, 72]).grid.cells = s.grid.cells ∧
      (VT100.run s [27, 91, 72]).grid.cursor = ⟨0, 0⟩) := by
  refine ⟨?_, ?_, ?_⟩
  · intro s b h1 h2 h3 h4 h5 hb1 hb2 hb3
    rw [VT100.step_ground_print s b h1 hb1 hb2 hb3]
    have hcol : s.grid.cursor.col < s.grid.cols := by omega
    constructor
    · show (s.grid.putChar b).cells = _
      rw [VT100.putChar_nowrap s.grid b h2 hcol, h5]
    · show (s.grid.putChar b).cursor = _
      rw [VT100.putChar_nowrap s.grid b h2 hcol]
      show (⟨s.grid.cursor.row, s.grid.cursor.col + 1⟩ : VT100.Cursor) = _
      rw [h5]
      have : s.grid.cols - 1 + 1 = s.grid.cols := by omega
      rw [this]
  · intro s b h1 h2 h3 h4 hb1 hb2 hb3
    rw [VT100.step_ground_print s b h1 hb1 hb2 hb3]
    show (s.grid.putChar b).cursor = _
    rw [VT100.putChar_pending s.grid b h2 h3 h4]
  · intro s h1 h2 h3
    have e1 := VT100.step_ground_esc s h1
    have e2 := VT100.step_escape_csi (VT100.step s 27) (by rw [e1])
    have e3 := VT100.step_csi_final (VT100.step (VT100.step s 27) 91) false []
      none (by rw [e2]) 72 (by omega) (by omega)
    have hg : (VT100.step (VT100.step s 27) 91).grid = s.grid := by rw [e2, e1]
    have hrun : VT100.run s [27, 91, 72] =
        VT100.step (VT100.step (VT100.step s 27) 91) 72 := rfl
    rw [hrun, e3]
    unfold VT100.EmulState.csiDispatch
    rw [hg]
    simp only [List.nil_append]
    rw [VT100.csiApply_H, VT100.moveTo_home s.grid h2 h3]
    exact ⟨rfl, rfl⟩

/-- Claim C3, witness: a concrete fixed-mode state at the rightmost column,
the letter A written there, then the pending-wrap consequences. -/
theorem c3_deferred_wrap_witness :
    ((VT100.step
        ⟨{ VT100.initGrid 80 24 false with cursor := ⟨0, 79⟩ }, .ground⟩
        65).grid.cells =
      (({ VT100.initGrid 80 24 false with
          cursor := ⟨0, 79⟩ } : VT100.Grid).setCell 0 79
        ⟨65, (VT100.initGrid 80 24 false).attr⟩).cells ∧
     (VT100.step
        ⟨{ VT100.initGrid 80 24 false with cursor := ⟨0, 79⟩ }, .ground⟩
        65).grid.cursor = ⟨0, 80⟩) ∧
    ((VT100.run
        ⟨{ VT100.initGrid 80 24 false with cursor := ⟨0, 80⟩ }, .ground⟩
        [27, 91, 72]).grid.cells =
      ({ VT100.initGrid 80 24 false with
          cursor := ⟨0, 80⟩ } : VT100.Grid).cells ∧
     (VT100.run
        ⟨{ VT100.initGrid 80 24 false with cursor := ⟨0, 80⟩ }, .ground⟩
        [27, 91, 72]).grid.cursor = ⟨0, 0⟩) :=
  ⟨c3_deferred_wrap.1
      ⟨{ VT100.initGrid 80 24 false with cursor := ⟨0, 79⟩ }, .ground⟩ 65
      rfl rfl rfl (by decide) rfl (by decide) (by decide) (by decide),
   c3_deferred_wrap.2.2
      ⟨{ VT100.initGrid 80 24 false with cursor := ⟨0, 80⟩ }, .ground⟩
      rfl rfl rfl⟩

namespace VT100

/-- Auto-grow run over printable bytes from a one-row state: the parser
stays in ground, the grid keeps one row, and the cursor and column count
advance by the length of the text. -/
theorem ag_run_print (t : List Nat)
    (hp : ∀ b ∈ t, 32 ≤ b ∧ b ≤ 255 ∧ b ≠ 127) :
    ∀ s : EmulState, s.pst = .ground → s.grid.autoGrow = true →
    s.grid.rows = 1 → s.grid.cursor.row = 0 →
    s.grid.cols = max 1 s.grid.cursor.col →
    (run s t).pst = .ground ∧ (run s t).grid.autoGrow = true ∧
    (run s t).grid.rows = 1 ∧ (run s t).grid.cursor.row = 0 ∧
    (run s t).grid.cursor.col = s.grid.cursor.col + t.length ∧
    (run s t).grid.cols = max 1 (s.grid.cursor.col + t.length) := by
  induction t with
  | nil =>
    intro s h1 h2 h3 h4 h5
    exact ⟨h1, h2, h3, h4, by simp [run], by simpa [run] using h5⟩
  | cons b rest ih =>
    intro s h1 h2 h3 h4 h5
    obtain ⟨hb1, hb2, hb3⟩ := hp b (by simp)
    have hb := List.forall_mem_cons.mp hp
    have hrw : step s b = { s with grid :=
        { (s.grid.growTo s.grid.cursor.row s.grid.cursor.col).setCell
            s.grid.cursor.row s.grid.cursor.col ⟨b, s.grid.attr⟩ with
            cursor := ⟨s.grid.cursor.row, s.grid.cursor.col + 1⟩ } } := by
      rw [step_ground_print s b h1 hb1 hb2 hb3, putChar_ag s.grid b h2]
    have hgrows : (s.grid.growTo s.grid.cursor.row s.grid.cursor.col).rows = 1 := by
      unfold Grid.growTo
      rw [if_pos h2]
      show max s.grid.rows (s.grid.cursor.row + 1) = 1
      omega
    have hgcols : (s.grid.growTo s.grid.cursor.row s.grid.cursor.col).cols
        = max 1 (s.grid.cursor.col + 1) := by
      unfold Grid.growTo
      rw [if_pos h2]
      show max s.grid.cols (s.grid.cursor.col + 1) = _
      omega
    have hgag : (s.grid.growTo s.grid.cursor.row s.grid.cursor.col).autoGrow
        = true := by
      unfold Grid.growTo
      rw [if_pos h2]
      exact h2
    have hres := ih hb.2 (step s b) (by rw [hrw]; exact h1) (by rw [hrw]; exact hgag)
      (by rw [hrw]; exact hgrows) (by rw [hrw]; exact h4)
      (by rw [hrw]; show (s.grid.growTo _ _).cols = _ ; rw [hgcols])
    have hc1 : (step s b).grid.cursor.col = s.grid.cursor.col + 1 := by
      rw [hrw]
    have hstep : run s (b :: rest) = run (step s b) rest := rfl
    rw [hstep]
    refine ⟨hres.1, hres.2.1, hres.2.2.1, hres.2.2.2.1, ?_, ?_⟩
    · rw [hres.2.2.2.2.1, hc1]
      simp
      omega
    · rw [hres.2.2.2.2.2, hc1]
      simp
      omega

end VT100

namespace VT100

theorem run_append (s : EmulState) (a b : List Nat) :
    run s (a ++ b) = run (run s a) b :=
  List.foldl_append step s a b

theorem step_csi_digit (s : EmulState) (priv : Bool) (ps : List (Option Nat))
    (cur : Option Nat) (h : s.pst = .csi priv ps cur) (d : Nat)
    (hd1 : 48 ≤ d) (hd2 : d ≤ 57) :
    step s d = { s with pst := .csi priv ps (some ((cur.getD 0) * 10 + (d - 48))) } := by
  obtain ⟨g, p⟩ := s
  simp only [] at h
  subst h
  show (if 48 ≤ d ∧ d ≤ 57 then _ else _) = _
  rw [if_pos ⟨hd1, hd2⟩]

/-- SGR changes only the attribute set of the grid. -/
theorem csiApply_sgr (g : Grid) (priv : Bool) (ps : List (Option Nat)) :
    g.csiApply priv ps 109 = { g with attr := applySGRs g.attr ps } := rfl

/-- A full reset-attributes sequence leaves the grid geometry unchanged. -/
theorem sgr_suffix_geometry (s : EmulState) (h : s.pst = .ground) :
    (run s sgrSuf).grid.cols = s.grid.cols ∧
    (run s sgrSuf).grid.rows = s.grid.rows := by
  have e1 := step_ground_esc s h
  have e2 := step_escape_csi (step s 27) (by rw [e1])
  have e3 := step_csi_digit (step (step s 27) 91) false [] none (by rw [e2]) 48
    (by omega) (by omega)
  have e4 := step_csi_final (step (step (step s 27) 91) 48) false []
    (some ((Option.getD none 0) * 10 + (48 - 48))) (by rw [e3]) 109
    (by omega) (by omega)
  have hg : (step (step (step s 27) 91) 48).grid = s.grid := by rw [e3, e2, e1]
  have hrun : run s sgrSuf = step (step (step (step s 27) 91) 48) 109 := rfl
  rw [hrun, e4]
  unfold EmulState.csiDispatch
  rw [hg, csiApply_sgr]
  exact ⟨rfl, rfl⟩

end VT100

/-- Claim C5: wrapping a printable text in the SGR sequences ESC [ 30;41 m
and ESC [ 0 m does not change the computed geometry: DisplayWidth of the
wrapped text equals DisplayWidth of the text itself. -/
theorem c5_sgr_geometry (t : List Nat)
    (hp : ∀ b ∈ t, 32 ≤ b ∧ b ≤ 255 ∧ b ≠ 127) :
    VT100.DisplayWidth (VT100.sgrPre ++ t ++ VT100.sgrSuf) =
      VT100.DisplayWidth t := by
  have hE0 : VT100.run (VT100.initEmul 1 1 true) VT100.sgrPre =
      ⟨{ VT100.initGrid 1 1 true with attr := VT100.sgrAttr }, .ground⟩ := rfl
  have hA := VT100.ag_run_print t hp
    ⟨{ VT100.initGrid 1 1 true with attr := VT100.sgrAttr }, .ground⟩
    rfl rfl rfl rfl rfl
  have hB := VT100.ag_run_print t hp (VT100.initEmul 1 1 true)
    rfl rfl rfl rfl rfl
  have hsuf := VT100.sgr_suffix_geometry
    (VT100.run ⟨{ VT100.initGrid 1 1 true with attr := VT100.sgrAttr },
      .ground⟩ t) hA.1
  unfold VT100.DisplayWidth
  rw [VT100.run_append, VT100.run_append, hE0]
  rw [hsuf.1, hsuf.2, hA.2.2.1, hA.2.2.2.2.2, hB.2.2.1, hB.2.2.2.2.2]
  rfl

/-- Claim C5, witness at the one-character text H. -/
theorem c5_sgr_geometry_witness :
    VT100.DisplayWidth (VT100.sgrPre ++ [72] ++ VT100.sgrSuf) =
      VT100.DisplayWidth [72] :=
  c5_sgr_geometry [72] (by decide)

namespace VT100

theorem pres_refl (g : Grid) : Pres g g :=
  ⟨rfl, rfl, rfl, Nat.le_refl _, Nat.le_refl _⟩

theorem pres_trans {a b c : Grid} (h1 : Pres a b) (h2 : Pres b c) : Pres a c :=
  ⟨h2.1.trans h1.1, h2.2.1.trans h1.2.1, h2.2.2.1.trans h1.2.2.1,
   h1.2.2.2.1.trans h2.2.2.2.1, h1.2.2.2.2.trans h2.2.2.2.2⟩

theorem pres_withCursor (g g2 : Grid) (cu : Cursor) (h : Pres g g2) :
    Pres g { g2 with cursor := cu } :=
  ⟨h.1, h.2.1, h.2.2.1, h.2.2.2.1, h.2.2.2.2⟩

theorem pres_setCell (g : Grid) (r c : Nat) (cl : Cell) :
    Pres g (g.setCell r c cl) :=
  ⟨rfl, rfl, rfl, Nat.le_refl _, Nat.le_refl _⟩

theorem pres_growTo (g : Grid) (r c : Nat) : Pres g (g.growTo r c) := by
  unfold Grid.growTo
  split
  · exact ⟨rfl, rfl, rfl, Nat.le_max_left _ _, Nat.le_max_left _ _⟩
  · exact pres_refl g

theorem pres_cursorBack (g : Grid) (n : Nat) : Pres g (g.cursorBack n) :=
  ⟨rfl, rfl, rfl, Nat.le_refl _, Nat.le_refl _⟩

theorem pres_tabForward (g : Grid) : Pres g (g.tabForward) :=
  ⟨rfl, rfl, rfl, Nat.le_refl _, Nat.le_refl _⟩

theorem pres_carriageReturn (g : Grid) : Pres g (g.carriageReturn) :=
  ⟨rfl, rfl, rfl, Nat.le_refl _, Nat.le_refl _⟩

theorem pres_scrollUpOne (g : Grid) : Pres g (g.scrollUpOne) :=
  ⟨rfl, rfl, rfl, Nat.le_refl _, Nat.le_refl _⟩

theorem pres_lineFeed (g : Grid) : Pres g (g.lineFeed) := by
  unfold Grid.lineFeed
  split
  · exact pres_withCursor _ _ _ (pres_growTo g _ _)
  · split
    · exact pres_scrollUpOne g
    · exact pres_withCursor _ _ _ (pres_refl g)

theorem pres_putChar (g : Grid) (b : Nat) : Pres g (g.putChar b) := by
  unfold Grid.putChar
  split
  · exact pres_withCursor _ _ _
      (pres_trans (pres_growTo g _ _) (pres_setCell _ _ _ _))
  · split
    · exact pres_withCursor _ _ _
        (pres_trans (pres_trans (pres_carriageReturn g) (pres_lineFeed _))
          (pres_setCell _ _ _ _))
    · exact pres_withCursor _ _ _ (pres_setCell _ _ _ _)

/-- A byte other than ESC processed in ground state keeps the parser in
ground and preserves the snapshot, attributes and grow mode. -/
theorem ground_step_pres (s : EmulState) (b : Nat) (h : s.pst = .ground)
    (hb : b ≠ 27) :
    (step s b).pst = .ground ∧ Pres s.grid (step s b).grid := by
  obtain ⟨g, p⟩ := s
  simp only [] at h
  subst h
  by_cases h8 : b = 8
  · subst h8; exact ⟨rfl, pres_cursorBack g 1⟩
  by_cases h9 : b = 9
  · subst h9; exact ⟨rfl, pres_tabForward g⟩
  by_cases h10 : b = 10
  · subst h10; exact ⟨rfl, pres_lineFeed g⟩
  by_cases h11 : b = 11
  · subst h11; exact ⟨rfl, pres_lineFeed g⟩
  by_cases h12 : b = 12
  · subst h12; exact ⟨rfl, pres_lineFeed g⟩
  by_cases h13 : b = 13
  · subst h13; exact ⟨rfl, pres_carriageReturn g⟩
  by_cases hig : b < 32 ∨ b = 127
  · have hs : step ⟨g, .ground⟩ b = ⟨g, .ground⟩ := by
      show (if b = 27 then _ else _) = _
      rw [if_neg hb, if_neg h8, if_neg h9, if_neg (by omega), if_neg h13,
          if_pos hig]
    rw [hs]
    exact ⟨rfl, pres_refl g⟩
  by_cases h255 : b ≤ 255
  · rw [step_ground_print ⟨g, .ground⟩ b rfl (by omega) h255 (by omega)]
    exact ⟨rfl, pres_putChar g b⟩
  · have hs : step ⟨g, .ground⟩ b = ⟨g, .ground⟩ := by
      show (if b = 27 then _ else _) = _
      rw [if_neg hb, if_neg h8, if_neg h9, if_neg (by omega), if_neg h13,
          if_neg (by omega), if_neg (by omega)]
    rw [hs]
    exact ⟨rfl, pres_refl g⟩

/-- An escape-free byte sequence processed from ground state keeps the
parser in ground and preserves snapshot, attributes and grow mode. -/
theorem ground_run_pres (m : List Nat) (hm : ∀ b ∈ m, b ≠ 27) :
    ∀ s : EmulState, s.pst = .ground →
    (run s m).pst = .ground ∧ Pres s.grid (run s m).grid := by
  induction m with
  | nil => intro s h; exact ⟨h, pres_refl _⟩
  | cons b rest ih =>
    intro s h
    have hb := hm b (by simp)
    have hstep := ground_step_pres s b h hb
    have hres := ih (fun x hx => hm x (by simp [hx])) (step s b) hstep.1
    exact ⟨hres.1, pres_trans hstep.2 hres.2⟩

theorem step_escape_save (s : EmulState) (h : s.pst = .escape) :
    step s 55 = { grid := s.grid.saveCursor, pst := .ground } := by
  obtain ⟨g, p⟩ := s
  simp only [] at h
  subst h
  rfl

theorem step_escape_restore (s : EmulState) (h : s.pst = .escape) :
    step s 56 = { grid := s.grid.restoreCursor, pst := .ground } := by
  obtain ⟨g, p⟩ := s
  simp only [] at h
  subst h
  rfl

theorem restore_some (g : Grid) (sv : Saved) (h : g.saved = some sv) :
    g.restoreCursor =
      { g with cursor := ⟨min sv.row (g.rows - 1), min sv.col g.cols⟩,
               attr := sv.attr,
               modes := { g.modes with origin := sv.origin } } := by
  unfold Grid.restoreCursor
  rw [h]

end VT100

/-- Claim C6: from any ground state, ESC 7, then any escape-free byte
sequence, then ESC 8 restores the cursor position, the attributes and the
origin mode exactly to their values at the time of ESC 7 (the snapshot
holds row, col, attr and origin mode).  The interior sequence is
escape-free, which is the balanced form of the pair: it contains no
nested save, restore, or escape sequence. -/
theorem c6_save_restore (s : VT100.EmulState) (m : List Nat)
    (h1 : s.pst = .ground) (hr : s.grid.cursor.row < s.grid.rows)
    (hc : s.grid.cursor.col ≤ s.grid.cols) (hm : ∀ b ∈ m, b ≠ 27) :
    (VT100.run (VT100.run (VT100.run s [27, 55]) m) [27, 56]).grid.cursor
        = s.grid.cursor ∧
    (VT100.run (VT100.run (VT100.run s [27, 55]) m) [27, 56]).grid.attr
        = s.grid.attr ∧
    (VT100.run (VT100.run (VT100.run s [27, 55]) m) [27, 56]).grid.modes.origin
        = s.grid.modes.origin := by
  have e1 := VT100.step_ground_esc s h1
  have e2 := VT100.step_escape_save (VT100.step s 27) (by rw [e1])
  have hrun1 : VT100.run s [27, 55] = VT100.step (VT100.step s 27) 55 := rfl
  have hg1 : (VT100.run s [27, 55]).grid = s.grid.saveCursor := by
    rw [hrun1, e2, e1]
  have hp1 : (VT100.run s [27, 55]).pst = .ground := by rw [hrun1, e2]
  have hmid := VT100.ground_run_pres m hm (VT100.run s [27, 55]) hp1
  have e3 := VT100.step_ground_esc _ hmid.1
  have e4 := VT100.step_escape_restore
    (VT100.step (VT100.run (VT100.run s [27, 55]) m) 27) (by rw [e3])
  have hrun2 : VT100.run (VT100.run (VT100.run s [27, 55]) m) [27, 56] =
      VT100.step (VT100.step (VT100.run (VT100.run s [27, 55]) m) 27) 56 := rfl
  have hgmid : (VT100.step (VT100.run (VT100.run s [27, 55]) m) 27).grid =
      (VT100.run (VT100.run s [27, 55]) m).grid := by rw [e3]
  have hsaved : (VT100.run (VT100.run s [27, 55]) m).grid.saved =
      some ⟨s.grid.cursor.row, s.grid.cursor.col, s.grid.attr,
            s.grid.modes.origin⟩ := by
    rw [hmid.2.1, hg1]
    rfl
  have hrows : s.grid.rows ≤ (VT100.run (VT100.run s [27, 55]) m).grid.rows := by
    have := hmid.2.2.2.2.1
    rw [hg1] at this
    exact this
  have hcols : s.grid.cols ≤ (VT100.run (VT100.run s [27, 55]) m).grid.cols := by
    have := hmid.2.2.2.2.2
    rw [hg1] at this
    exact this
  rw [hrun2, e4, hgmid,
      VT100.restore_some _ _ hsaved]
  have hminr : min s.grid.cursor.row
      ((VT100.run (VT100.run s [27, 55]) m).grid.rows - 1)
      = s.grid.cursor.row := by omega
  have hminc : min s.grid.cursor.col
      (VT100.run (VT100.run s [27, 55]) m).grid.cols
      = s.grid.cursor.col := by omega
  refine ⟨?_, rfl, rfl⟩
  show (⟨min s.grid.cursor.row _, min s.grid.cursor.col _⟩ : VT100.Cursor) = _
  rw [hminr, hminc]

/-- Claim C6, witness: saving at a concrete position, typing Hi, then
restoring. -/
theorem c6_save_restore_witness :
    (VT100.run (VT100.run (VT100.run
        ⟨{ VT100.initGrid 80 24 false with cursor := ⟨3, 5⟩ }, .ground⟩
        [27, 55]) [72, 105]) [27, 56]).grid.cursor = ⟨3, 5⟩ ∧
    (VT100.run (VT100.run (VT100.run
        ⟨{ VT100.initGrid 80 24 false with cursor := ⟨3, 5⟩ }, .ground⟩
        [27, 55]) [72, 105]) [27, 56]).grid.attr = VT100.defaultAttr ∧
    (VT100.run (VT100.run (VT100.run
        ⟨{ VT100.initGrid 80 24 false with cursor := ⟨3, 5⟩ }, .ground⟩
        [27, 55]) [72, 105]) [27, 56]).grid.modes.origin = false :=
  c6_save_restore
    ⟨{ VT100.initGrid 80 24 false with cursor := ⟨3, 5⟩ }, .ground⟩
    [72, 105] rfl (by decide) (by decide) (by decide)

namespace VT100

/-- A CSI final byte outside the command table leaves the grid unchanged. -/
theorem csiApply_unknown (g : Grid) (priv : Bool) (ps : List (Option Nat))
    (fb : Nat)
    (hu : ¬(fb = 65 ∨ fb = 66 ∨ fb = 67 ∨ fb = 68 ∨ fb = 72 ∨ fb = 102 ∨
            fb = 74 ∨ fb = 75 ∨ fb = 109 ∨ fb = 104 ∨ fb = 108 ∨ fb = 114 ∨
            fb = 103)) :
    g.csiApply priv ps fb = g := by
  unfold Grid.csiApply
  rw [if_neg (show ¬fb = 65 by omega), if_neg (show ¬fb = 66 by omega),
      if_neg (show ¬fb = 67 by omega), if_neg (show ¬fb = 68 by omega),
      if_neg (show ¬(fb = 72 ∨ fb = 102) by omega),
      if_neg (show ¬fb = 74 by omega), if_neg (show ¬fb = 75 by omega),
      if_neg (show ¬fb = 109 by omega), if_neg (show ¬fb = 104 by omega),
      if_neg (show ¬fb = 108 by omega), if_neg (show ¬fb = 114 by omega),
      if_neg (show ¬fb = 103 by omega)]

end VT100

/-- Claim C7: the parser and emulator are total by construction (step is a
total function), and malformed sequences are silently discarded: an
unrecognized byte after ESC returns the parser to ground with the grid
untouched; an unknown CSI final byte likewise dispatches to the identity
and returns to ground; and in fixed mode out-of-range cursor targets are
clamped into the grid rather than rejected. -/
theorem c7_total_discard_clamp :
    (∀ (s : VT100.EmulState) (b : Nat), s.pst = .escape →
      ¬(b = 91 ∨ b = 35 ∨ b = 40 ∨ b = 41 ∨ b = 55 ∨ b = 56 ∨ b = 68 ∨
        b = 69 ∨ b = 77 ∨ b = 99) →
      VT100.step s b = { s with pst := .ground }) ∧
    (∀ (s : VT100.EmulState) (priv : Bool) (ps : List (Option Nat))
        (cur : Option Nat) (b : Nat), s.pst = .csi priv ps cur →
      64 ≤ b → b ≤ 126 →
      ¬(b = 65 ∨ b = 66 ∨ b = 67 ∨ b = 68 ∨ b = 72 ∨ b = 102 ∨ b = 74 ∨
        b = 75 ∨ b = 109 ∨ b = 104 ∨ b = 108 ∨ b = 114 ∨ b = 103) →
      (VT100.step s b).grid = s.grid ∧ (VT100.step s b).pst = .ground) ∧
    (∀ (g : VT100.Grid) (r c : Nat), g.autoGrow = false → 1 ≤ g.rows →
      1 ≤ g.cols → g.scrollBottom < g.rows →
      (g.moveTo r c).cursor.row < g.rows ∧ (g.moveTo r c).cursor.col < g.cols) := by
  refine ⟨?_, ?_, ?_⟩
  · intro s b h hu
    obtain ⟨g, p⟩ := s
    simp only [] at h
    subst h
    show (if b = 91 then _ else _) = _
    rw [if_neg (show ¬b = 91 by omega), if_neg (show ¬b = 35 by omega),
        if_neg (show ¬(b = 40 ∨ b = 41) by omega),
        if_neg (show ¬b = 55 by omega), if_neg (show ¬b = 56 by omega),
        if_neg (show ¬b = 68 by omega), if_neg (show ¬b = 69 by omega),
        if_neg (show ¬b = 77 by omega), if_neg (show ¬b = 99 by omega)]
  · intro s priv ps cur b h h64 h126 hu
    rw [VT100.step_csi_final s priv ps cur h b h64 h126]
    unfold VT100.EmulState.csiDispatch
    rw [VT100.csiApply_unknown s.grid priv (ps ++ [cur]) b hu]
    exact ⟨rfl, rfl⟩
  · intro g r c hag h1 h2 h3
    unfold VT100.Grid.moveTo
    rw [if_neg (by simp [hag])]
    by_cases ho : g.modes.origin = true
    · rw [if_pos ho]
      constructor <;> (show min _ _ < _ ; omega)
    · rw [if_neg ho]
      constructor <;> (show min _ _ < _ ; omega)

/-- Claim C7, witness: the digit 0 after ESC is discarded to ground; the
final byte Z after CSI leaves the grid unchanged; and moveTo far outside a
fixed 80 by 24 grid is clamped inside it. -/
theorem c7_total_discard_clamp_witness :
    (VT100.step ⟨VT100.initGrid 80 24 false, .escape⟩ 48 =
      { (⟨VT100.initGrid 80 24 false, .escape⟩ : VT100.EmulState) with
          pst := .ground }) ∧
    ((VT100.step ⟨VT100.initGrid 80 24 false, .csi false [] none⟩ 90).grid =
      VT100.initGrid 80 24 false) ∧
    (((VT100.initGrid 80 24 false).moveTo 100 200).cursor.row < 24 ∧
     ((VT100.initGrid 80 24 false).moveTo 100 200).cursor.col < 80) :=
  ⟨c7_total_discard_clamp.1 ⟨VT100.initGrid 80 24 false, .escape⟩ 48 rfl
      (by decide),
   (c7_total_discard_clamp.2.1 ⟨VT100.initGrid 80 24 false, .csi false [] none⟩
      false [] none 90 rfl (by decide) (by decide) (by decide)).1,
   c7_total_discard_clamp.2.2 (VT100.initGrid 80 24 false) 100 200 rfl
      (by decide) (by decide) (by decide)⟩

namespace VT100

theorem parseToks_error_iff (ts : List (List Nat)) :
    parseToks ts = .error .malformedHexDump ↔ hasOddTok ts = true := by
  induction ts with
  | nil => simp [parseToks, hasOddTok]
  | cons t rest ih =>
    unfold parseToks hasOddTok
    by_cases hpipe : t.headD 0 = 124
    · rw [if_pos hpipe, if_pos hpipe]
      simp
    rw [if_neg hpipe, if_neg hpipe]
    by_cases hhex : t.all isHexDig = true
    · rw [if_pos hhex, if_pos hhex]
      by_cases heven : t.length % 2 = 0
      · rw [if_pos heven, if_pos heven]
        cases hres : parseToks rest with
        | ok bs =>
          rw [hres] at ih
          simp at ih
          simp [ih]
        | error e =>
          cases e
          rw [hres] at ih
          simp at ih
          simp [ih]
      · rw [if_neg heven, if_neg heven]
        simp
    · rw [if_neg hhex, if_neg hhex]
      simp

theorem parseLine_skipped (l : List Nat) (h : lineSkipped l = true) :
    parseLine l = .ok [] := by
  unfold lineSkipped at h
  unfold parseLine
  cases htk : lineToks l with
  | nil => rfl
  | cons off rest =>
    rw [htk] at h
    simp at h
    show (if off.all isHexDig = true then parseToks rest else Except.ok [])
      = Except.ok []
    rw [if_neg (by simp [h])]

theorem parseLine_error_iff (l : List Nat) :
    parseLine l = .error .malformedHexDump ↔ lineMalformed l = true := by
  unfold parseLine lineMalformed
  cases htk : lineToks l with
  | nil => simp
  | cons off rest =>
    show ((if off.all isHexDig = true then parseToks rest else Except.ok [])
        = Except.error HexDumpError.malformedHexDump) ↔
      (off.all isHexDig && hasOddTok rest) = true
    by_cases hhex : off.all isHexDig = true
    · rw [if_pos hhex]
      simp [hhex, parseToks_error_iff]
    · rw [if_neg hhex]
      simp at hhex
      simp [hhex]

theorem parseLines_error_iff (ls : List (List Nat)) :
    parseLines ls = .error .malformedHexDump ↔ ls.any lineMalformed = true := by
  induction ls with
  | nil => simp [parseLines]
  | cons l rest ih =>
    unfold parseLines
    cases hl : parseLine l with
    | ok bs =>
      have hml : lineMalformed l = false := by
        by_cases hx : lineMalformed l = true
        · rw [← parseLine_error_iff] at hx
          rw [hl] at hx
          cases hx
        · simpa using hx
      cases hr : parseLines rest with
      | ok v =>
        have hra : rest.any lineMalformed = false := by
          by_cases hx : rest.any lineMalformed = true
          · rw [← ih] at hx
            rw [hr] at hx
            cases hx
          · simpa using hx
        simp [hml, hra]
      | error e =>
        cases e
        have hra : rest.any lineMalformed = true := by
          rw [← ih, hr]
        simp [hml, hra]
    | error e =>
      cases e
      have hml : lineMalformed l = true := by
        rw [← parseLine_error_iff, hl]
      simp [hml]

theorem parseLines_skip (l : List Nat) (ls : List (List Nat))
    (h : lineSkipped l = true) : parseLines (l :: ls) = parseLines ls := by
  show (match parseLine l, parseLines ls with
        | .ok bs, .ok rest => Except.ok (bs ++ rest)
        | .error e, _ => .error e
        | .ok _, .error e => .error e) = parseLines ls
  rw [parseLine_skipped l h]
  cases hr : parseLines ls with
  | ok v => simp
  | error e => rfl

end VT100

/-- Claim C8: ParseHexDump skips every line that does not match the stanza
pattern (such as stdout: headers) without error; it accepts a short final
line with fewer than 16 byte pairs; and it returns MalformedHexDump exactly
when some line that matches the pattern contains an unpaired nibble, that
is, an odd-length hex byte token before the ASCII pane. -/
theorem c8_hexdump_behavior :
    (∀ (l : List Nat) (ls : List (List Nat)), VT100.lineSkipped l = true →
      VT100.parseLines (l :: ls) = VT100.parseLines ls) ∧
    VT100.ParseHexDump VT100.shortStanza = .ok [27, 91] ∧
    (∀ input : List Nat,
      VT100.ParseHexDump input = .error .malformedHexDump ↔
        ((VT100.splitOnByte 10 input).any VT100.lineMalformed) = true) :=
  ⟨VT100.parseLines_skip, rfl, fun input =>
    VT100.parseLines_error_iff (VT100.splitOnByte 10 input)⟩

/-- Claim C8, witness: the stdout: header line is skipped in front of any
line list, and a one-line input with an unpaired nibble is malformed. -/
theorem c8_hexdump_behavior_witness :
    VT100.parseLines ([115, 116, 100, 111, 117, 116, 58] :: []) =
      VT100.parseLines [] ∧
    (VT100.ParseHexDump [48, 48, 32, 49, 98, 32, 53] =
      .error .malformedHexDump ↔
      ((VT100.splitOnByte 10 [48, 48, 32, 49, 98, 32, 53]).any
        VT100.lineMalformed) = true) :=
  ⟨c8_hexdump_behavior.1 [115, 116, 100, 111, 117, 116, 58] [] (by decide),
   c8_hexdump_behavior.2.2 [48, 48, 32, 49, 98, 32, 53]⟩

namespace VT100

theorem writeRow0_cons (t : List Nat) :
    ∀ (r : List Cell) (rs : List (List Cell)) (j : Nat) (a : Attr),
    writeRow0 (r :: rs) j t a = setRowSeq r j t a :: rs := by
  induction t with
  | nil => intro r rs j a; rfl
  | cons b rest ih =>
    intro r rs j a
    show writeRow0 ((r :: rs).set 0 (((r :: rs).getD 0 []).set j ⟨b, a⟩))
      (j + 1) rest a = _
    have hset : (r :: rs).set 0 (((r :: rs).getD 0 []).set j ⟨b, a⟩)
        = (r.set j ⟨b, a⟩) :: rs := by simp
    rw [hset, ih]
    rfl

theorem set_append_len {α : Type} (pre : List α) (l : List α) (v : α) :
    (pre ++ l).set pre.length v = pre ++ l.set 0 v := by
  induction pre with
  | nil => simp
  | cons x xs ih => simp [List.set, ih]

theorem setRowSeq_append (t : List Nat) :
    ∀ (pre : List Cell) (k : Nat) (a : Attr), t.length ≤ k →
    setRowSeq (pre ++ List.replicate k blankCell) pre.length t a
      = pre ++ t.map (fun b => (⟨b, a⟩ : Cell)) ++
        List.replicate (k - t.length) blankCell := by
  induction t with
  | nil => intro pre k a h; simp [setRowSeq]
  | cons b rest ih =>
    intro pre k a h
    cases k with
    | zero => simp at h
    | succ k0 =>
      show setRowSeq ((pre ++ List.replicate (k0 + 1) blankCell).set
        pre.length ⟨b, a⟩) (pre.length + 1) rest a = _
      rw [set_append_len]
      have hrep : (List.replicate (k0 + 1) blankCell).set 0 ⟨b, a⟩
          = ⟨b, a⟩ :: List.replicate k0 blankCell := by
        simp [List.replicate_succ, List.set]
      rw [hrep]
      have hassoc : pre ++ (⟨b, a⟩ :: List.replicate k0 blankCell)
          = (pre ++ [⟨b, a⟩]) ++ List.replicate k0 blankCell := by simp
      rw [hassoc]
      have hlen : pre.length + 1 = (pre ++ [(⟨b, a⟩ : Cell)]).length := by simp
      rw [hlen, ih (pre ++ [(⟨b, a⟩ : Cell)]) k0 a (by simp at h ⊢; omega)]
      simp

theorem dropWhile_replicate_append {α : Type} (p : α → Bool) (x : α)
    (hp : p x = true) (n : Nat) (l : List α) :
    List.dropWhile p (List.replicate n x ++ l) = List.dropWhile p l := by
  induction n with
  | zero => simp
  | succ m ih => simp [List.replicate_succ, List.dropWhile_cons, hp, ih]

theorem rstrip_append_spaces (u : List Nat) (k : Nat) :
    rstrip (u ++ List.replicate k 32) = rstrip u := by
  unfold rstrip
  rw [List.reverse_append, List.reverse_replicate,
      dropWhile_replicate_append _ _ (by simp) k u.reverse]

theorem rstrip_no_trailing (u : List Nat) (h : u.getLast? ≠ some 32) :
    rstrip u = u := by
  rcases List.eq_nil_or_concat u with hnil | ⟨L, b, hc⟩
  · subst hnil; rfl
  · rw [List.concat_eq_append] at hc
    subst hc
    have hb : b ≠ 32 := by
      rw [List.getLast?_concat] at h
      intro hx
      exact h (by rw [hx])
    unfold rstrip
    rw [List.reverse_append]
    show ((b :: L.reverse).dropWhile (fun c => c == 32)).reverse = _
    rw [List.dropWhile_cons]
    rw [if_neg (by simp [hb])]
    simp

end VT100

namespace VT100

/-- Fixed-mode run over printable bytes that fit in the current row: each
byte is written at the cursor and the cursor slides right, ending in the
pending-wrap position when the row is exactly filled. -/
theorem fixed_run_print (t : List Nat)
    (hp : ∀ b ∈ t, 32 ≤ b ∧ b ≤ 255 ∧ b ≠ 127) :
    ∀ s : EmulState, s.pst = .ground → s.grid.autoGrow = false →
    s.grid.cursor.row = 0 → s.grid.cursor.col + t.length ≤ s.grid.cols →
    run s t = { s with grid := { s.grid with
      cells := writeRow0 s.grid.cells s.grid.cursor.col t s.grid.attr,
      cursor := ⟨0, s.grid.cursor.col + t.length⟩ } } := by
  induction t with
  | nil =>
    intro s h1 h2 h3 h4
    have hcur : (⟨0, s.grid.cursor.col + ([] : List Nat).length⟩ : Cursor)
        = s.grid.cursor := by
      show (⟨0, s.grid.cursor.col + 0⟩ : Cursor) = s.grid.cursor
      rw [Nat.add_zero, ← h3]
    show s = _
    rw [hcur]
    rfl
  | cons b rest ih =>
    intro s h1 h2 h3 h4
    obtain ⟨hb1, hb2, hb3⟩ := hp b (by simp)
    have hb := List.forall_mem_cons.mp hp
    have hput := putChar_nowrap s.grid b h2 (by simp at h4; omega)
    rw [h3] at hput
    have hrw : step s b = { s with grid :=
        { s.grid.setCell 0 s.grid.cursor.col ⟨b, s.grid.attr⟩ with
          cursor := ⟨0, s.grid.cursor.col + 1⟩ } } := by
      rw [step_ground_print s b h1 hb1 hb2 hb3, hput]
    have hstep : run s (b :: rest) = run (step s b) rest := rfl
    rw [hstep, ih hb.2 (step s b) (by rw [hrw]; exact h1) (by rw [hrw]; exact h2)
      (by rw [hrw])
      (by rw [hrw]
          show s.grid.cursor.col + 1 + rest.length ≤ s.grid.cols
          simp at h4
          omega),
      hrw]
    have hlen : s.grid.cursor.col + (b :: rest).length
        = s.grid.cursor.col + 1 + rest.length := by simp; omega
    rw [hlen]
    rfl

end VT100

namespace VT100

/-- Trimming a fixed 80 by 24 grid whose first row carries the text t
(padded with blanks) and whose other rows are blank yields exactly [t]. -/
theorem trimGrid_row0 (g : Grid) (t : List Nat) (hne : t ≠ [])
    (hlast : t.getLast? ≠ some 32)
    (hcells : g.cells =
      (t.map (fun b => (⟨b, defaultAttr⟩ : Cell)) ++
        List.replicate (80 - t.length) blankCell) ::
      List.replicate 23 (List.replicate 80 blankCell)) :
    trimGrid g = [t] := by
  unfold trimGrid
  rw [hcells, List.map_cons]
  have hrow : rstrip ((t.map (fun b => (⟨b, defaultAttr⟩ : Cell)) ++
      List.replicate (80 - t.length) blankCell).map Cell.ch) = t := by
    have hmap : (t.map (fun b => (⟨b, defaultAttr⟩ : Cell)) ++
        List.replicate (80 - t.length) blankCell).map Cell.ch
        = t ++ List.replicate (80 - t.length) 32 := by
      simp only [List.map_append, List.map_map, List.map_replicate]
      rw [show (Cell.ch ∘ fun b => (⟨b, defaultAttr⟩ : Cell)) = id from rfl,
          List.map_id, show blankCell.ch = 32 from rfl]
    rw [hmap, rstrip_append_spaces, rstrip_no_trailing t hlast]
  rw [hrow, List.map_replicate]
  have hb : rstrip ((List.replicate 80 blankCell).map Cell.ch) = [] := by
    rw [List.map_replicate]
    show rstrip (List.replicate 80 32) = []
    have h0 := rstrip_append_spaces [] 80
    simpa using h0
  rw [hb, List.reverse_cons, List.reverse_replicate,
      dropWhile_replicate_append List.isEmpty ([] : List Nat) rfl 23 [t]]
  have hts : t.isEmpty = false := by
    cases t with
    | nil => exact absurd rfl hne
    | cons a l => rfl
  rw [List.dropWhile_cons, if_neg (by simp [hts])]
  simp

end VT100

/-- Claim C2, amended: for every nonempty plain ASCII text t of length at
most 80 containing no control bytes (all bytes in [0x20, 0x7E]) whose last
byte is not a space, DisplayWidth t = (len t, 1) and Trim t = [t].  The
amendment excludes the empty text (DisplayWidth starts from a 1 by 1 grid)
and texts ending in a space (Trim removes trailing blank cells), which the
counterexample exhibits. -/
theorem c2_roundtrip_amended (t : List Nat) (hne : t ≠ [])
    (hp : ∀ b ∈ t, 32 ≤ b ∧ b ≤ 126) (hlen : t.length ≤ 80)
    (hlast : t.getLast? ≠ some 32) :
    VT100.DisplayWidth t = (t.length, 1) ∧ VT100.Trim t = [t] := by
  have hp2 : ∀ b ∈ t, 32 ≤ b ∧ b ≤ 255 ∧ b ≠ 127 := fun b hb =>
    ⟨(hp b hb).1, by have := (hp b hb).2; omega, by have := (hp b hb).2; omega⟩
  have hpos : 0 < t.length := List.length_pos.mpr hne
  constructor
  · have hA := VT100.ag_run_print t hp2 (VT100.initEmul 1 1 true)
      rfl rfl rfl rfl rfl
    unfold VT100.DisplayWidth
    rw [hA.2.2.1, hA.2.2.2.2.2]
    show (max 1 (0 + t.length), 1) = (t.length, 1)
    rw [show max 1 (0 + t.length) = t.length by omega]
  · have hF := VT100.fixed_run_print t hp2 (VT100.initEmul 80 24 false)
      rfl rfl rfl (by show 0 + t.length ≤ 80; omega)
    unfold VT100.Trim
    rw [hF]
    apply VT100.trimGrid_row0 _ t hne hlast
    show VT100.writeRow0 (VT100.initGrid 80 24 false).cells 0 t
      VT100.defaultAttr = _
    rw [show (VT100.initGrid 80 24 false).cells
        = List.replicate 80 VT100.blankCell ::
          List.replicate 23 (List.replicate 80 VT100.blankCell) from rfl,
      VT100.writeRow0_cons]
    have hsrs := VT100.setRowSeq_append t [] 80 VT100.defaultAttr hlen
    simp only [List.nil_append, List.length_nil] at hsrs
    rw [hsrs]

/-- Claim C2, witness for the amended statement at the text Hi. -/
theorem c2_roundtrip_amended_witness :
    VT100.DisplayWidth [72, 105] = (2, 1) ∧ VT100.Trim [72, 105] = [[72, 105]] :=
  c2_roundtrip_amended [72, 105] (by decide) (by decide) (by decide) (by decide)
